import Mathlib

/-!
Verification of the session-management core of the `textadventure` plugin
(`src/main.py`).

The plugin keeps one process-wide registry `active_game_sessions`, a Python
dict from user id to an optional `SessionController`: the value `None` is
the placeholder written by `start_adventure` (line 182, `先占个位置`), a
non-`None` value is the live controller installed by the turn handler
(line 134).  We embed the dict as an association list over `String` keys,
controllers as numeric ids, and the effect of `controller.stop()` as
membership of the controller id in a `stopFlags` list.
-/

deriving instance DecidableEq for Except

namespace TextAdventure

/-- A registry value: `none` is the `None` placeholder, `some cid` is a
live `SessionController` identified by `cid`. -/
abbrev Ctrl := Option Nat

/-- Shared state touched by the command handlers: the
`active_game_sessions` dict and the set of controllers whose `stop()` has
been called. -/
structure GState where
  active_game_sessions : List (String × Ctrl)
  stopFlags : List Nat
  deriving DecidableEq, Repr

/-- Python `user_id in dict`. -/
def containsKey (l : List (String × Ctrl)) (u : String) : Bool :=
  l.any (fun p => p.1 == u)

/-- Python `dict[user_id]` on a present key (first binding). -/
def lookupKey (l : List (String × Ctrl)) (u : String) : Option Ctrl :=
  (l.find? (fun p => p.1 == u)).map Prod.snd

/-- Python `del dict[user_id]` / the removal part of `dict.pop(user_id, None)`. -/
def eraseKey (l : List (String × Ctrl)) (u : String) : List (String × Ctrl) :=
  l.filter (fun p => p.1 != u)

/-- `if controller: controller.stop()` — record the stop signal when the
value is a live controller; the `None` placeholder is falsy and skipped. -/
def ctrlStop (st : GState) (c : Ctrl) : GState :=
  match c with
  | some cid => { st with stopFlags := cid :: st.stopFlags }
  | none => st

/-- Reply of `end_adventure` / `force_end_adventure` when
`user_id not in active_game_sessions` (lines 211 and 231). -/
def noSessionMsg (uid : String) : String :=
  "您当前没有正在进行的冒险。\n(玩家ID: " ++ uid ++ ")"

/-- Reply of `end_adventure` on an active session (lines 205-209). -/
def endRequestedMsg (uid : String) : String :=
  "✅ **冒险结束指令已发出**。\n如果AI正在响应，将在本回合结束后终止。如果游戏长时间无响应，请使用 /强制结束冒险。\n(玩家ID: " ++ uid ++ ")"

/-- Reply of `force_end_adventure` on an active session (lines 225-229). -/
def forceEndMsg (uid : String) : String :=
  "💥 **冒险已强制终止！**\n您可以随时通过 /开始冒险 开启新的旅程。\n(玩家ID: " ++ uid ++ ")"

/-- Reply of `cmd_admin_end_all_games` to a non-administrator (line 241). -/
def permDeniedMsg : String := "❌ 权限不足，只有管理员可操作此命令。"

/-- Reply of `cmd_admin_end_all_games` when the registry is empty (line 246). -/
def noActiveGamesMsg : String := "当前没有活跃的文字冒险游戏。"

/-- Reply of `cmd_admin_end_all_games` after stopping `n` sessions
(lines 256-259). -/
def adminDoneMsg (n : Nat) : String :=
  "✅ **管理员操作完成**。\n已强制终止所有 " ++ toString n ++ " 个活跃的文字冒险游戏。"

/-- `end_adventure` (lines 195-212): graceful stop.  On an active session
it signals the controller (when live) but leaves the registry entry in
place, relying on the waiter for cleanup; on an absent key it only
reports that no adventure is running. -/
def end_adventure (st : GState) (u : String) : GState × String :=
  if containsKey st.active_game_sessions u then
    (ctrlStop st ((lookupKey st.active_game_sessions u).getD none), endRequestedMsg u)
  else
    (st, noSessionMsg u)

/-- `force_end_adventure` (lines 214-232): forced stop.  On an active
session it pops the registry entry immediately (`pop(user_id, None)`,
line 221) and then signals the popped controller when live; on an absent
key it only reports that no adventure is running. -/
def force_end_adventure (st : GState) (u : String) : GState × String :=
  if containsKey st.active_game_sessions u then
    let controller := (lookupKey st.active_game_sessions u).getD none
    let st1 : GState := { st with active_game_sessions := eraseKey st.active_game_sessions u }
    (ctrlStop st1 controller, forceEndMsg u)
  else
    (st, noSessionMsg u)

/-- One iteration of the loop at lines 251-254 of
`cmd_admin_end_all_games`: `if controller: controller.stop()` then
`del self.active_game_sessions[user_id]`. -/
def adminStopStep (st : GState) (p : String × Ctrl) : GState :=
  let st1 := ctrlStop st p.2
  { st1 with active_game_sessions := eraseKey st1.active_game_sessions p.1 }

/-- `cmd_admin_end_all_games` (lines 235-261): reject non-administrators;
report when no session is active; otherwise take the count, iterate a
snapshot (`list(self.active_game_sessions.items())`) stopping and
deleting every entry, and report the count. -/
def cmd_admin_end_all_games (st : GState) (is_admin : Bool) : GState × String :=
  if !is_admin then (st, permDeniedMsg)
  else if st.active_game_sessions.isEmpty then (st, noActiveGamesMsg)
  else
    let stopped_count := st.active_game_sessions.length
    (st.active_game_sessions.foldl adminStopStep st, adminDoneMsg stopped_count)

/-! ## The turn handler `adventure_waiter` (lines 125-178)

One invocation of the waiter handles one inbound message.  We embed it as
a small-step machine: each step is one of the maximal atomic blocks of
the Python coroutine (code between two `await` suspension points), so
that the effect of a concurrently running `force_end_adventure` can be
interposed between any two blocks — exactly the interleavings the asyncio
scheduler allows.  The machine is specialised to the one user the waiter
serves: `reg` is `user_id in active_game_sessions` for that user. -/

/-- Transcript roles of `llm_conversation_context` entries. -/
inductive Role
  | system
  | user
  | assistant
  deriving DecidableEq, Repr

/-- One entry of `llm_conversation_context`. -/
structure ChatMsg where
  role : Role
  content : String
  deriving DecidableEq, Repr

/-- Non-story messages the waiter sends: the re-prompt for empty input
(line 138), the thinking notice (line 142) and the failure notice
(line 175). -/
inductive NoticeKind
  | reprompt
  | thinking
  | failure
  deriving DecidableEq, Repr

/-- A message delivered to the player: either generated story text
(lines 160-169, image or plain-text fallback) or a notice. -/
inductive Delivery
  | story (text : String)
  | notice (k : NoticeKind)
  deriving DecidableEq, Repr

/-- Program counter of the waiter coroutine, one value per maximal atomic
block. -/
inductive WaiterPC
  /-- about to run lines 129-134: membership re-check, install controller -/
  | entry
  /-- about to run lines 136-140: strip input, empty-input re-prompt -/
  | checkInput
  /-- about to run lines 142-146: thinking notice, append user action, issue the LLM call -/
  | preGen
  /-- the `await llm_provider.text_chat` of line 146 is in flight;
  the next step is lines 151-157 (append result, post-call membership check) -/
  | calling
  /-- about to run lines 160-171: deliver the story text, re-arm the deadline -/
  | rendering
  /-- about to run lines 173-178: failure notice, registry cleanup, stop -/
  | errNotify
  /-- handler returned with `controller.keep(...)` done; session awaits the next message -/
  | awaitNext
  /-- handler returned after `controller.stop()`; the session is over -/
  | ended
  deriving DecidableEq, Repr

/-- Configuration of one waiter invocation, focused on its user. -/
structure Cfg where
  pc : WaiterPC
  /-- `user_id in active_game_sessions` -/
  reg : Bool
  /-- line 134 has stored the live controller in the registry entry -/
  ctrlLive : Bool
  /-- `controller.stop()` has been called -/
  ctrlStopped : Bool
  /-- `llm_conversation_context` -/
  transcript : List ChatMsg
  /-- messages delivered to the player so far, in order -/
  delivered : List Delivery
  /-- number of `text_chat` calls issued -/
  attempts : Nat
  /-- `controller.keep(timeout=self.session_timeout, reset_timeout=True)` ran -/
  deadlineRearmed : Bool
  deriving DecidableEq, Repr

/-- Drop leading and trailing whitespace from a character list. -/
def stripChars (l : List Char) : List Char :=
  ((l.dropWhile Char.isWhitespace).reverse.dropWhile Char.isWhitespace).reverse

/-- Python `str.strip()` on the inbound message (line 136). -/
def pystrip (s : String) : String := String.mk (stripChars s.data)

/-- One atomic block of `adventure_waiter`, parametrised by the inbound
message `action` and by how the in-flight LLM call resolves (`gen`). -/
def adventure_waiter_step (action : String) (gen : Except Unit String) (c : Cfg) : Cfg :=
  match c.pc with
  | .entry =>
    -- lines 129-132: if the user is gone, stop; line 134: install controller
    if !c.reg then { c with ctrlStopped := true, pc := .ended }
    else { c with ctrlLive := true, pc := .checkInput }
  | .checkInput =>
    -- lines 136-140: empty input is re-prompted and the deadline re-armed
    if pystrip action = "" then
      { c with delivered := c.delivered ++ [.notice .reprompt],
               deadlineRearmed := true, pc := .awaitNext }
    else { c with pc := .preGen }
  | .preGen =>
    -- lines 142-146: thinking notice, append the user action, issue the call
    { c with delivered := c.delivered ++ [.notice .thinking],
             transcript := c.transcript ++ [ChatMsg.mk .user (pystrip action)],
             attempts := c.attempts + 1, pc := .calling }
  | .calling =>
    match gen with
    | .ok text =>
      -- lines 151-157: append the result, then re-check membership
      let c1 := { c with transcript := c.transcript ++ [ChatMsg.mk .assistant text] }
      if !c1.reg then { c1 with ctrlStopped := true, pc := .ended }
      else { c1 with pc := .rendering }
    | .error _ =>
      -- the `except` of line 173 takes over
      { c with pc := .errNotify }
  | .rendering =>
    -- lines 160-171: deliver the story (image or plain-text fallback), keep alive
    match gen with
    | .ok text =>
      { c with delivered := c.delivered ++ [.story text],
               deadlineRearmed := true, pc := .awaitNext }
    | .error _ => c
  | .errNotify =>
    -- lines 173-178: failure notice, delete the registry entry if present, stop
    { c with delivered := c.delivered ++ [.notice .failure],
             reg := false, ctrlStopped := true, pc := .ended }
  | .awaitNext => c
  | .ended => c

/-- Effect of `force_end_adventure` (lines 219-224) on the waiter's user:
pop the registry entry and signal the controller stored there (the entry
holds the live controller only after line 134 ran). -/
def force_stop_step (c : Cfg) : Cfg :=
  if c.reg then { c with reg := false, ctrlStopped := c.ctrlStopped || c.ctrlLive }
  else c

/-- A scheduling choice: run the waiter's next atomic block, or run a
concurrent `force_end_adventure` for the same user. -/
inductive Act
  | handler
  | forcer
  deriving DecidableEq, Repr

/-- Run a schedule of interleaved waiter blocks and forced stops. -/
def runActs (action : String) (gen : Except Unit String) (acts : List Act) (c : Cfg) : Cfg :=
  acts.foldl (fun c a =>
    match a with
    | .handler => adventure_waiter_step action gen c
    | .forcer => force_stop_step c) c

/-- Initial configuration of one waiter invocation: the user holds a
registry entry and the handler is at its first line. -/
def initCfg : Cfg :=
  { pc := .entry, reg := true, ctrlLive := false, ctrlStopped := false,
    transcript := [], delivered := [], attempts := 0, deadlineRearmed := false }

/-- The story messages among a delivery list. -/
def storyMsgs (l : List Delivery) : List Delivery :=
  l.filter (fun d => match d with | .story _ => true | .notice _ => false)

/-- The failure notices among a delivery list. -/
def failureNotices (l : List Delivery) : List Delivery :=
  l.filter (fun d => match d with | .notice .failure => true | _ => false)

/-! ## Session exit in `start_adventure` (lines 180-193)

`await adventure_waiter(event)` either completes, raises
`asyncio.TimeoutError` (the session_waiter framework raises it when no
inbound message arrives within the configured window — in that case the
handler body is never entered for the timed-out turn), or raises some
other exception.  The `except`/`finally` of lines 184-193 turn this into
a reply and unconditional registry cleanup. -/

/-- Everything of the timeout reply (lines 184-185) before the user id. -/
def timeoutMsgHead : String :=
  "⏱️ **冒险超时！**\n你的角色在原地陷入了沉睡，游戏已自动结束。使用 /开始冒险 来唤醒他/她，或开始新的冒险。\n(玩家ID: "

/-- The timeout reply of lines 184-185. -/
def timeoutMessage (uid : String) : String := timeoutMsgHead ++ uid ++ ")"

/-- Everything of the unknown-error reply (lines 186-188) before the user id. -/
def unknownErrMsgHead : String :=
  "冒险过程中发生未知错误，游戏已结束。\n(玩家ID: "

/-- The unknown-error reply of lines 186-188. -/
def unknownErrorMessage (uid : String) : String := unknownErrMsgHead ++ uid ++ ")"

/-- How `await adventure_waiter(event)` ends. -/
inductive WaitOutcome
  | timedOut
  | raised
  | completed
  deriving DecidableEq, Repr

/-- The `except asyncio.TimeoutError` / `except Exception` / `finally`
epilogue of `start_adventure` (lines 184-193): choose the reply from the
outcome, then delete the user's registry entry when still present. -/
def session_epilogue (st : GState) (uid : String) (out : WaitOutcome) :
    GState × Option String :=
  let reply : Option String :=
    match out with
    | .timedOut => some (timeoutMessage uid)
    | .raised => some (unknownErrorMessage uid)
    | .completed => none
  let st1 : GState :=
    if containsKey st.active_game_sessions uid then
      { st with active_game_sessions := eraseKey st.active_game_sessions uid }
    else st
  (st1, reply)

/-- Generator calls issued for one turn of the waiter.  A turn with no
inbound message times out inside the framework without entering the
handler body, so no call is issued; an inbound message runs the handler
to completion. -/
def turnAttempts (inbound : Option String) (gen : Except Unit String) : Nat :=
  match inbound with
  | none => initCfg.attempts
  | some action => (runActs action gen (List.replicate 6 .handler) initCfg).attempts

/-! ## Building the system prompt (lines 82-86)

`start_adventure` formats the configured template with
`self.system_prompt_template.format(game_theme=game_theme)` and falls
back to a hardcoded prompt only when that raises `KeyError`.  We model
Python `str.format` for exactly this call shape (a single keyword
argument `game_theme`): literal text passes through, `\x7b\x7b` and
`\x7d\x7d` are escapes, the field `game_theme` is substituted, any other
field name raises `KeyError`, and a lone or unterminated brace (or an
empty/automatic field, which would look up a missing positional
argument) raises an error that `except KeyError` does not catch. -/

/-- The two Python format errors that matter here: `KeyError` (caught at
line 84) and everything else (`ValueError`/`IndexError`, not caught). -/
inductive FmtError
  | keyError
  | otherError
  deriving DecidableEq, Repr

/-- The opening brace character. -/
def lbChar : Char := Char.ofNat 123

/-- The closing brace character. -/
def rbChar : Char := Char.ofNat 125

/-- The one recognised field name, `game_theme`. -/
def gameThemeField : List Char := "game_theme".data

/-- Scanner state of the `str.format` model: plain text, just after an
opening brace, inside a field name (accumulated reversed), or just after
a closing brace. -/
inductive FMode
  | text
  | openBr
  | field (acc : List Char)
  | closeBr
  deriving DecidableEq, Repr

/-- One pass of Python `str.format(game_theme=theme)` over the template. -/
def pyFmtRun (theme : List Char) : FMode → List Char → Except FmtError (List Char)
  | .text, [] => .ok []
  | .openBr, [] => .error .otherError
  | .field _, [] => .error .otherError
  | .closeBr, [] => .error .otherError
  | .text, c :: cs =>
    if c = lbChar then pyFmtRun theme .openBr cs
    else if c = rbChar then pyFmtRun theme .closeBr cs
    else (pyFmtRun theme .text cs).map (fun r => c :: r)
  | .openBr, c :: cs =>
    if c = lbChar then (pyFmtRun theme .text cs).map (fun r => lbChar :: r)
    else if c = rbChar then .error .otherError
    else pyFmtRun theme (.field [c]) cs
  | .field acc, c :: cs =>
    if c = rbChar then
      if acc.reverse = gameThemeField then
        (pyFmtRun theme .text cs).map (fun r => theme ++ r)
      else .error .keyError
    else pyFmtRun theme (.field (c :: acc)) cs
  | .closeBr, c :: cs =>
    if c = rbChar then (pyFmtRun theme .text cs).map (fun r => rbChar :: r)
    else .error .otherError

/-- `template.format(game_theme=theme)` (line 83). -/
def pyFormat (template theme : String) : Except FmtError String :=
  (pyFmtRun theme.data .text template.data).map (fun l => String.mk l)

/-- An ASCII single quote, kept out of string literals. -/
def squote : String := String.mk [Char.ofNat 39]

/-- Text of the hardcoded fallback prompt (line 86) before the theme. -/
def fallbackHead : String :=
  "你是一位经验丰富的文字冒险游戏主持人(Game Master)。你将在一个" ++ squote

/-- Text of the hardcoded fallback prompt (line 86) after the theme. -/
def fallbackTail : String :=
  squote ++ "主题下，根据玩家的行动实时生成独特且逻辑连贯的故事情节。"

/-- The hardcoded fallback prompt of line 86, with the theme spliced in. -/
def fallbackSystemPrompt (theme : String) : String :=
  (fallbackHead ++ theme) ++ fallbackTail

/-- Lines 82-86 of `start_adventure`: use the formatted template;
on `KeyError` use the fallback; any other formatting exception escapes
the `except KeyError` handler. -/
def build_system_prompt (template theme : String) : Except FmtError String :=
  match pyFormat template theme with
  | .ok s => .ok s
  | .error .keyError => .ok (fallbackSystemPrompt theme)
  | .error .otherError => .error .otherError

/-! ## Interleaving of two `start_adventure` attempts (lines 48-183)

`start_adventure` checks `user_id in self.active_game_sessions` at
line 58 and writes the placeholder only at line 182; in between it
yields the disclaimer, awaits the opening `text_chat` call and yields
the opening scene — several suspension points at which another
`/开始冒险` event for the same user may run.  We embed each attempt as
three atomic blocks and let a schedule interleave two attempts for the
same user. -/

/-- Program counter of one `start_adventure` attempt. -/
inductive StartPC
  /-- about to run lines 55-60: the duplicate-session guard -/
  | guard
  /-- lines 62-178: disclaimer, prompt building, the opening LLM call
  and the opening-scene delivery, with suspension points throughout -/
  | opening
  /-- about to run line 182: `self.active_game_sessions[user_id] = None` -/
  | insertPh
  /-- line 183 onwards: the waiter session is running -/
  | running
  /-- halted at line 59-60 with the already-in-progress reply -/
  | refused
  deriving DecidableEq, Repr

/-- Two concurrent `start_adventure` attempts for one user: their program
counters and whether that user currently has a registry entry. -/
structure StartSys where
  t1 : StartPC
  t2 : StartPC
  reg : Bool
  deriving DecidableEq, Repr

/-- Advance one attempt by one atomic block. -/
def startStep (pc : StartPC) (reg : Bool) : StartPC × Bool :=
  match pc with
  | .guard => if reg then (.refused, reg) else (.opening, reg)
  | .opening => (.insertPh, reg)
  | .insertPh => (.running, true)
  | .running => (.running, reg)
  | .refused => (.refused, reg)

/-- Run a schedule over the two attempts: `true` steps the first attempt,
`false` the second. -/
def startRun (sched : List Bool) (s : StartSys) : StartSys :=
  sched.foldl (fun s pick =>
    if pick then
      let (pc, reg) := startStep s.t1 s.reg
      { s with t1 := pc, reg := reg }
    else
      let (pc, reg) := startStep s.t2 s.reg
      { s with t2 := pc, reg := reg }) s

/-- Both attempts begin at the guard, with no session registered. -/
def startInit : StartSys := { t1 := .guard, t2 := .guard, reg := false }

/-! ## Registry lemmas -/

theorem eraseKey_cons_self (l : List (String × Ctrl)) (p : String × Ctrl) (u : String)
    (hp : p.1 = u) : eraseKey (p :: l) u = eraseKey l u := by
  simp [eraseKey, List.filter_cons, hp]

theorem eraseKey_cons_ne (l : List (String × Ctrl)) (p : String × Ctrl) (u : String)
    (hp : p.1 ≠ u) : eraseKey (p :: l) u = p :: eraseKey l u := by
  simp [eraseKey, List.filter_cons, hp]

theorem containsKey_eraseKey_self (l : List (String × Ctrl)) (u : String) :
    containsKey (eraseKey l u) u = false := by
  induction l with
  | nil => rfl
  | cons p l ih =>
    by_cases hp : p.1 = u
    · rw [eraseKey_cons_self l p u hp]; exact ih
    · rw [eraseKey_cons_ne l p u hp]
      have hb : (p.1 == u) = false := beq_eq_false_iff_ne.mpr hp
      simp only [containsKey, List.any_cons, hb, Bool.false_or]
      exact ih

theorem lookupKey_cons_self (l : List (String × Ctrl)) (p : String × Ctrl) (v : String)
    (hp : p.1 = v) : lookupKey (p :: l) v = some p.2 := by
  have hb : (p.1 == v) = true := beq_iff_eq.mpr hp
  simp [lookupKey, List.find?_cons, hb]

theorem lookupKey_cons_ne (l : List (String × Ctrl)) (p : String × Ctrl) (v : String)
    (hp : p.1 ≠ v) : lookupKey (p :: l) v = lookupKey l v := by
  have hb : (p.1 == v) = false := beq_eq_false_iff_ne.mpr hp
  simp [lookupKey, List.find?_cons, hb]

theorem lookupKey_eraseKey_ne (l : List (String × Ctrl)) (u v : String) (hvu : v ≠ u) :
    lookupKey (eraseKey l u) v = lookupKey l v := by
  induction l with
  | nil => rfl
  | cons p l ih =>
    by_cases hpu : p.1 = u
    · have hpv : p.1 ≠ v := by rw [hpu]; exact fun h => hvu h.symm
      rw [eraseKey_cons_self l p u hpu, lookupKey_cons_ne l p v hpv]
      exact ih
    · by_cases hpv : p.1 = v
      · rw [eraseKey_cons_ne l p u hpu, lookupKey_cons_self (eraseKey l u) p v hpv,
          lookupKey_cons_self l p v hpv]
      · rw [eraseKey_cons_ne l p u hpu, lookupKey_cons_ne (eraseKey l u) p v hpv,
          lookupKey_cons_ne l p v hpv]
        exact ih

theorem lookupKey_isSome_of_containsKey (l : List (String × Ctrl)) (u : String)
    (h : containsKey l u = true) : ∃ c, lookupKey l u = some c := by
  induction l with
  | nil => simp [containsKey] at h
  | cons p l ih =>
    by_cases hp : p.1 = u
    · exact ⟨p.2, lookupKey_cons_self l p u hp⟩
    · have hb : (p.1 == u) = false := beq_eq_false_iff_ne.mpr hp
      have h' : containsKey l u = true := by
        simpa only [containsKey, List.any_cons, hb, Bool.false_or] using h
      obtain ⟨c, hc⟩ := ih h'
      exact ⟨c, by rw [lookupKey_cons_ne l p u hp]; exact hc⟩

/-! ## Claim theorems -/

/-- C5: calling `end_adventure` or `force_end_adventure` for a user with
no active session is safe — the registry `active_game_sessions` is left
unchanged and the caller is told that no adventure is in progress,
rather than an error being raised. -/
theorem stop_absent_user_safe (st : GState) (u : String)
    (h : containsKey st.active_game_sessions u = false) :
    end_adventure st u = (st, noSessionMsg u) ∧
    force_end_adventure st u = (st, noSessionMsg u) := by
  constructor <;> simp [end_adventure, force_end_adventure, h]

/-- Witness for `stop_absent_user_safe` at a registry that holds only a
session of another user. -/
theorem stop_absent_user_safe_witness :
    containsKey (GState.mk [("bob", some 1)] []).active_game_sessions "alice" = false ∧
    (end_adventure (GState.mk [("bob", some 1)] []) "alice"
        = (GState.mk [("bob", some 1)] [], noSessionMsg "alice") ∧
      force_end_adventure (GState.mk [("bob", some 1)] []) "alice"
        = (GState.mk [("bob", some 1)] [], noSessionMsg "alice")) :=
  ⟨by decide, stop_absent_user_safe (GState.mk [("bob", some 1)] []) "alice" (by decide)⟩

/-- C10: a forced stop is per-user framed — when user `u` has an entry,
`force_end_adventure st u` removes `u`'s registry entry, leaves the
registry binding of every other user `v` unchanged, and the only
controller it can newly signal is the one stored under `u`. -/
theorem force_end_frame (st : GState) (u v : String) (huv : u ≠ v)
    (hu : containsKey st.active_game_sessions u = true) :
    containsKey (force_end_adventure st u).1.active_game_sessions u = false ∧
    lookupKey (force_end_adventure st u).1.active_game_sessions v
      = lookupKey st.active_game_sessions v ∧
    ∀ c : Nat, c ∈ (force_end_adventure st u).1.stopFlags →
      c ∈ st.stopFlags ∨ lookupKey st.active_game_sessions u = some (some c) := by
  obtain ⟨ctl, hctl⟩ := lookupKey_isSome_of_containsKey _ u hu
  have hres : (force_end_adventure st u).1
      = ctrlStop { st with active_game_sessions := eraseKey st.active_game_sessions u } ctl := by
    simp [force_end_adventure, hu, hctl]
  refine ⟨?_, ?_, ?_⟩
  · rw [hres]
    cases ctl <;> simp [ctrlStop, containsKey_eraseKey_self]
  · rw [hres]
    cases ctl <;> simp [ctrlStop, lookupKey_eraseKey_ne _ u v (Ne.symm huv)]
  · intro c hc
    rw [hres] at hc
    cases ctl with
    | none => exact Or.inl hc
    | some cid =>
      simp only [ctrlStop, List.mem_cons] at hc
      cases hc with
      | inl h => exact Or.inr (h ▸ hctl)
      | inr h => exact Or.inl h

/-- Witness for `force_end_frame` with two live sessions. -/
theorem force_end_frame_witness :
    ("alice" ≠ "bob" ∧
      containsKey (GState.mk [("alice", some 1), ("bob", some 2)] []).active_game_sessions
        "alice" = true) ∧
    (containsKey (force_end_adventure (GState.mk [("alice", some 1), ("bob", some 2)] [])
        "alice").1.active_game_sessions "alice" = false ∧
      lookupKey (force_end_adventure (GState.mk [("alice", some 1), ("bob", some 2)] [])
          "alice").1.active_game_sessions "bob"
        = lookupKey (GState.mk [("alice", some 1), ("bob", some 2)] []).active_game_sessions
            "bob" ∧
      ∀ c : Nat, c ∈ (force_end_adventure (GState.mk [("alice", some 1), ("bob", some 2)] [])
          "alice").1.stopFlags →
        c ∈ (GState.mk [("alice", some 1), ("bob", some 2)] [] : GState).stopFlags ∨
          lookupKey (GState.mk [("alice", some 1), ("bob", some 2)] []).active_game_sessions
            "alice" = some (some c)) :=
  ⟨⟨by decide, by decide⟩,
    force_end_frame (GState.mk [("alice", some 1), ("bob", some 2)] []) "alice" "bob"
      (by decide) (by decide)⟩

/-! ## Lemmas about the admin stop-all loop -/

theorem adminFold_active_nil (snap : List (String × Ctrl)) :
    ∀ st : GState,
      (∀ q ∈ st.active_game_sessions, q.1 ∈ snap.map Prod.fst) →
      (snap.foldl adminStopStep st).active_game_sessions = [] := by
  induction snap with
  | nil =>
    intro st h
    cases hst : st.active_game_sessions with
    | nil => simpa [List.foldl] using hst
    | cons q l =>
      exfalso
      have := h q (by rw [hst]; exact List.mem_cons_self q l)
      simp at this
  | cons p snap ih =>
    intro st h
    rw [List.foldl_cons]
    apply ih
    intro q hq
    have hq1 : q ∈ eraseKey (ctrlStop st p.2).active_game_sessions p.1 := by
      simpa [adminStopStep] using hq
    have hq2 : q.1 ≠ p.1 ∧ q ∈ (ctrlStop st p.2).active_game_sessions := by
      simp only [eraseKey, List.mem_filter, bne_iff_ne] at hq1
      exact ⟨hq1.2, hq1.1⟩
    have hq3 : q ∈ st.active_game_sessions := by
      cases hp2 : p.2 <;> simpa [ctrlStop, hp2] using hq2.2
    have := h q hq3
    simp only [List.map_cons, List.mem_cons] at this
    cases this with
    | inl hbad => exact absurd hbad hq2.1
    | inr hgood => simpa using hgood

theorem adminFold_stopFlags_mono (snap : List (String × Ctrl)) :
    ∀ (st : GState) (c : Nat), c ∈ st.stopFlags →
      c ∈ (snap.foldl adminStopStep st).stopFlags := by
  induction snap with
  | nil => intro st c hc; simpa using hc
  | cons p snap ih =>
    intro st c hc
    rw [List.foldl_cons]
    apply ih
    cases hp2 : p.2 with
    | none => simpa [adminStopStep, ctrlStop, hp2] using hc
    | some cid =>
      simp only [adminStopStep, ctrlStop, hp2]
      exact List.mem_cons_of_mem cid hc

theorem adminFold_stops_all (snap : List (String × Ctrl)) :
    ∀ (st : GState) (u : String) (c : Nat), (u, some c) ∈ snap →
      c ∈ (snap.foldl adminStopStep st).stopFlags := by
  induction snap with
  | nil => intro st u c hc; simp at hc
  | cons p snap ih =>
    intro st u c hc
    rw [List.foldl_cons]
    cases hc with
    | head =>
      apply adminFold_stopFlags_mono
      simp [adminStopStep, ctrlStop]
    | tail _ htail => exact ih _ u c htail

/-- C9: `/admin end` from a non-administrator is rejected with the
permission-denied reply and changes nothing; from an administrator with
at least one active session it empties `active_game_sessions`, signals
every live controller that was registered, and reports the number of
sessions that were stopped. -/
theorem admin_end_all_games (st : GState) :
    cmd_admin_end_all_games st false = (st, permDeniedMsg) ∧
    (st.active_game_sessions ≠ [] →
      (cmd_admin_end_all_games st true).1.active_game_sessions = [] ∧
      (cmd_admin_end_all_games st true).2
        = adminDoneMsg st.active_game_sessions.length ∧
      ∀ u c, (u, some c) ∈ st.active_game_sessions →
        c ∈ (cmd_admin_end_all_games st true).1.stopFlags) := by
  constructor
  · simp [cmd_admin_end_all_games]
  · intro hne
    have hempty : st.active_game_sessions.isEmpty = false := by
      simpa [List.isEmpty_iff] using hne
    have hres : cmd_admin_end_all_games st true
        = (st.active_game_sessions.foldl adminStopStep st,
            adminDoneMsg st.active_game_sessions.length) := by
      simp [cmd_admin_end_all_games, hempty]
    refine ⟨?_, ?_, ?_⟩
    · rw [hres]
      exact adminFold_active_nil st.active_game_sessions st
        (fun q hq => List.mem_map_of_mem Prod.fst hq)
    · rw [hres]
    · intro u c hc
      rw [hres]
      exact adminFold_stops_all st.active_game_sessions st u c hc

/-- Witness for `admin_end_all_games` with two live sessions. -/
theorem admin_end_all_games_witness :
    ((GState.mk [("alice", some 1), ("bob", some 2)] [] : GState).active_game_sessions
        ≠ [] ∧
      cmd_admin_end_all_games (GState.mk [("alice", some 1), ("bob", some 2)] []) false
        = (GState.mk [("alice", some 1), ("bob", some 2)] [], permDeniedMsg)) ∧
    ((cmd_admin_end_all_games (GState.mk [("alice", some 1), ("bob", some 2)] [])
        true).1.active_game_sessions = [] ∧
      (cmd_admin_end_all_games (GState.mk [("alice", some 1), ("bob", some 2)] [])
          true).2
        = adminDoneMsg
            (GState.mk [("alice", some 1), ("bob", some 2)] []
              : GState).active_game_sessions.length ∧
      ∀ u c, (u, some c)
          ∈ (GState.mk [("alice", some 1), ("bob", some 2)] []
              : GState).active_game_sessions →
        c ∈ (cmd_admin_end_all_games (GState.mk [("alice", some 1), ("bob", some 2)] [])
            true).1.stopFlags) :=
  ⟨⟨by decide,
      (admin_end_all_games (GState.mk [("alice", some 1), ("bob", some 2)] [])).1⟩,
    (admin_end_all_games (GState.mk [("alice", some 1), ("bob", some 2)] [])).2
      (by decide)⟩

/-- C1 (bug demonstration): the duplicate-session guard of
`start_adventure` is **not** an atomic check-and-insert.  The membership
check (line 58) and the placeholder insertion (line 182) are separated
by suspension points (the disclaimer `yield`s and the opening
`text_chat` `await`), so two interleaved start attempts for the same
user can both pass the guard before either inserts: in the schedule
below both attempts end up `running` and neither is `refused`.  The last
conjunct shows the guard does work once serialised: an attempt whose
check runs after the other attempt's insertion is refused. -/
theorem start_guard_not_atomic :
    (startRun [true, false, true, true, false, false] startInit).t1 = .running ∧
    (startRun [true, false, true, true, false, false] startInit).t2 = .running ∧
    (startRun [true, true, true, false] startInit).t2 = .refused := by decide

/-- C8 counterexample: a configured template that is malformed in the
claimed sense — it simply lacks the `game_theme` placeholder — does not
trigger the fallback at all.  Python `str.format` ignores unused keyword
arguments, so formatting succeeds, the template is used verbatim, and
the resulting system prompt is not the hardcoded default and does not
contain the theme. -/
theorem template_without_placeholder_no_fallback :
    build_system_prompt "你是一位擅长悬疑故事的主持人。" "奇幻世界"
      = Except.ok "你是一位擅长悬疑故事的主持人。" ∧
    "你是一位擅长悬疑故事的主持人。" ≠ fallbackSystemPrompt "奇幻世界" ∧
    ¬ ("奇幻世界".data <:+: "你是一位擅长悬疑故事的主持人。".data) := by decide

/-- C8 (amended): when formatting the configured template raises
`KeyError` — it references a placeholder other than `game_theme` — the
prompt construction does not crash: `start_adventure` falls back to the
hardcoded default prompt, which contains the theme. -/
theorem build_system_prompt_fallback (template theme : String)
    (h : pyFormat template theme = .error .keyError) :
    build_system_prompt template theme = .ok (fallbackSystemPrompt theme) ∧
    ∃ a b, fallbackSystemPrompt theme = (a ++ theme) ++ b := by
  refine ⟨?_, fallbackHead, fallbackTail, rfl⟩
  simp [build_system_prompt, h]

/-- Witness for `build_system_prompt_fallback` at a template whose
placeholder names a key that was not supplied. -/
theorem build_system_prompt_fallback_witness :
    pyFormat "讲述一个 {persona} 的故事。" "奇幻世界" = .error .keyError ∧
    (build_system_prompt "讲述一个 {persona} 的故事。" "奇幻世界"
        = .ok (fallbackSystemPrompt "奇幻世界") ∧
      ∃ a b, fallbackSystemPrompt "奇幻世界" = (a ++ "奇幻世界") ++ b) :=
  ⟨by decide, build_system_prompt_fallback "讲述一个 {persona} 的故事。" "奇幻世界" (by decide)⟩

/-! ## Lemmas about the waiter machine -/

theorem runActs_halted (action : String) (gen : Except Unit String) (acts : List Act)
    (c : Cfg) (hpc : c.pc = .ended) (hreg : c.reg = false) :
    runActs action gen acts c = c := by
  induction acts with
  | nil => rfl
  | cons a acts ih =>
    have hstep : (match a with
        | Act.handler => adventure_waiter_step action gen c
        | Act.forcer => force_stop_step c) = c := by
      cases a with
      | handler => simp [adventure_waiter_step, hpc]
      | forcer => simp [force_stop_step, hreg]
    simpa [runActs, List.foldl_cons, hstep] using ih

/-- C3: at its first line the turn handler re-checks registry membership
before anything else — if the user has been force-stopped while
composing input (no entry at that pre-call check), it calls
`controller.stop()` and returns at once: the session ends, nothing is
appended to the transcript, nothing is delivered, and the generator is
never called for that turn, no matter how the schedule continues. -/
theorem waiter_precall_check (c : Cfg) (action : String) (gen : Except Unit String)
    (hpc : c.pc = .entry) (hreg : c.reg = false) :
    adventure_waiter_step action gen c
      = { c with ctrlStopped := true, pc := .ended } ∧
    ∀ acts : List Act,
      (runActs action gen acts (adventure_waiter_step action gen c)).attempts
          = c.attempts ∧
      (runActs action gen acts (adventure_waiter_step action gen c)).transcript
          = c.transcript ∧
      (runActs action gen acts (adventure_waiter_step action gen c)).delivered
          = c.delivered := by
  have hstep : adventure_waiter_step action gen c
      = { c with ctrlStopped := true, pc := .ended } := by
    simp [adventure_waiter_step, hpc, hreg]
  refine ⟨hstep, fun acts => ?_⟩
  rw [hstep,
    runActs_halted action gen acts { c with ctrlStopped := true, pc := .ended } rfl hreg]
  exact ⟨rfl, rfl, rfl⟩

/-- Witness for `waiter_precall_check`: the user was force-stopped while
composing, the handler wakes at `entry` with the entry gone. -/
theorem waiter_precall_check_witness :
    (({ initCfg with reg := false } : Cfg).pc = .entry ∧
      ({ initCfg with reg := false } : Cfg).reg = false) ∧
    (adventure_waiter_step "查看四周" (.ok "一条走廊") { initCfg with reg := false }
        = { ({ initCfg with reg := false } : Cfg) with ctrlStopped := true, pc := .ended } ∧
      ∀ acts : List Act,
        (runActs "查看四周" (.ok "一条走廊") acts
            (adventure_waiter_step "查看四周" (.ok "一条走廊")
              { initCfg with reg := false })).attempts
            = ({ initCfg with reg := false } : Cfg).attempts ∧
        (runActs "查看四周" (.ok "一条走廊") acts
            (adventure_waiter_step "查看四周" (.ok "一条走廊")
              { initCfg with reg := false })).transcript
            = ({ initCfg with reg := false } : Cfg).transcript ∧
        (runActs "查看四周" (.ok "一条走廊") acts
            (adventure_waiter_step "查看四周" (.ok "一条走廊")
              { initCfg with reg := false })).delivered
            = ({ initCfg with reg := false } : Cfg).delivered) :=
  ⟨⟨rfl, rfl⟩,
    waiter_precall_check { initCfg with reg := false } "查看四周" (.ok "一条走廊") rfl rfl⟩

/-- After a forced stop the waiter is in a suppressed region: the user's
registry entry is gone and the handler sits at (or past) the in-flight
call, from which it can only discard the result or report a failure. -/
def Suppressed (c : Cfg) : Prop :=
  c.reg = false ∧ (c.pc = .calling ∨ c.pc = .errNotify ∨ c.pc = .ended)

theorem storyMsgs_append_notice (l : List Delivery) (k : NoticeKind) :
    storyMsgs (l ++ [.notice k]) = storyMsgs l := by
  simp [storyMsgs]

theorem suppressed_handler_step (action : String) (gen : Except Unit String) (c : Cfg)
    (h : Suppressed c) :
    Suppressed (adventure_waiter_step action gen c) ∧
    storyMsgs (adventure_waiter_step action gen c).delivered = storyMsgs c.delivered := by
  obtain ⟨hreg, hpc⟩ := h
  rcases hpc with hpc | hpc | hpc
  · cases gen with
    | ok text =>
      refine ⟨⟨?_, ?_⟩, ?_⟩ <;> simp [adventure_waiter_step, hpc, hreg]
    | error e =>
      refine ⟨⟨?_, ?_⟩, ?_⟩ <;> simp [adventure_waiter_step, hpc, hreg]
  · refine ⟨⟨?_, ?_⟩, ?_⟩ <;>
      simp [adventure_waiter_step, hpc, hreg, storyMsgs_append_notice]
  · refine ⟨⟨?_, ?_⟩, ?_⟩ <;> simp [adventure_waiter_step, hpc, hreg]

theorem suppressed_forcer_step (c : Cfg) (h : Suppressed c) :
    Suppressed (force_stop_step c) ∧
    storyMsgs (force_stop_step c).delivered = storyMsgs c.delivered := by
  obtain ⟨hreg, hpc⟩ := h
  exact ⟨⟨by simp [force_stop_step, hreg], by simpa [force_stop_step, hreg] using hpc⟩,
    by simp [force_stop_step, hreg]⟩

theorem runActs_suppressed (action : String) (gen : Except Unit String) (acts : List Act) :
    ∀ c : Cfg, Suppressed c →
      storyMsgs (runActs action gen acts c).delivered = storyMsgs c.delivered := by
  induction acts with
  | nil => intro c _; rfl
  | cons a acts ih =>
    intro c hc
    cases a with
    | handler =>
      obtain ⟨h1, h2⟩ := suppressed_handler_step action gen c hc
      calc storyMsgs (runActs action gen (Act.handler :: acts) c).delivered
          = storyMsgs (runActs action gen acts (adventure_waiter_step action gen c)).delivered := rfl
        _ = storyMsgs (adventure_waiter_step action gen c).delivered := ih _ h1
        _ = storyMsgs c.delivered := h2
    | forcer =>
      obtain ⟨h1, h2⟩ := suppressed_forcer_step c hc
      calc storyMsgs (runActs action gen (Act.forcer :: acts) c).delivered
          = storyMsgs (runActs action gen acts (force_stop_step c)).delivered := rfl
        _ = storyMsgs (force_stop_step c).delivered := ih _ h1
        _ = storyMsgs c.delivered := h2

/-- C2: if a forced stop for the waiter's user takes effect while the
LLM call of a turn is in flight (the handler is suspended at the
`await` of line 146), then no story output is ever delivered to that
user afterwards, however the schedule continues and however the call
resolves: `force_end_adventure` removes the registry entry at once, so
the post-call membership check of line 154 sees the user absent and the
generated result is discarded instead of sent. -/
theorem no_story_after_force_stop (action : String) (gen : Except Unit String)
    (pre post : List Act)
    (h : (runActs action gen pre initCfg).pc = .calling) :
    storyMsgs ((runActs action gen post
        (force_stop_step (runActs action gen pre initCfg))).delivered)
      = storyMsgs ((force_stop_step (runActs action gen pre initCfg)).delivered) := by
  apply runActs_suppressed
  constructor
  · by_cases hreg : (runActs action gen pre initCfg).reg
    <;> simp [force_stop_step, hreg]
  · left
    by_cases hreg : (runActs action gen pre initCfg).reg
    <;> simpa [force_stop_step, hreg] using h

/-- Witness for `no_story_after_force_stop`: the forced stop lands while
the call is in flight, the call then succeeds, and the result is
discarded — nothing is delivered after the stop. -/
theorem no_story_after_force_stop_witness :
    (runActs "向前走" (.ok "门后是一条暗道。") [.handler, .handler, .handler] initCfg).pc
        = .calling ∧
    storyMsgs ((runActs "向前走" (.ok "门后是一条暗道。") [.handler, .handler]
        (force_stop_step (runActs "向前走" (.ok "门后是一条暗道。")
          [.handler, .handler, .handler] initCfg))).delivered)
      = storyMsgs ((force_stop_step (runActs "向前走" (.ok "门后是一条暗道。")
          [.handler, .handler, .handler] initCfg)).delivered) :=
  ⟨by decide,
    no_story_after_force_stop "向前走" (.ok "门后是一条暗道。")
      [.handler, .handler, .handler] [.handler, .handler] (by decide)⟩

/-- C4 counterexample: an inbound message that begins with the reserved
command character `/` and reaches the waiter is **not** rejected — the
handler appends it to the transcript as a user action and issues a
generator call for it, instead of re-prompting and re-arming the
deadline.  The only rejection in lines 136-140 is of empty/whitespace
input. -/
theorem command_input_not_rejected :
    "/".data <+: "/结束冒险".data ∧
    (runActs "/结束冒险" (.ok "后续剧情") [.handler, .handler, .handler] initCfg).transcript
      = [ChatMsg.mk .user "/结束冒险"] ∧
    (runActs "/结束冒险" (.ok "后续剧情") [.handler, .handler, .handler] initCfg).attempts
      = 1 ∧
    (runActs "/结束冒险" (.ok "后续剧情") [.handler, .handler, .handler] initCfg).delivered
      = [.notice .thinking] ∧
    (runActs "/结束冒险" (.ok "后续剧情") [.handler, .handler, .handler] initCfg).deadlineRearmed
      = false := by decide

/-- C4 (amended): the waiter's input policy has no command-escape case.
Only empty/whitespace messages are rejected — re-prompted with the same
deadline class re-armed and nothing appended.  Every other message,
including one that begins with the reserved command character `/`, is
appended to the transcript as a user action and a generator call is
issued for it. -/
theorem waiter_input_policy (action : String) (gen : Except Unit String) :
    (pystrip action ≠ "" →
      (runActs action gen [.handler, .handler, .handler] initCfg).transcript
        = [ChatMsg.mk .user (pystrip action)] ∧
      (runActs action gen [.handler, .handler, .handler] initCfg).attempts = 1 ∧
      (runActs action gen [.handler, .handler, .handler] initCfg).pc = .calling) ∧
    (pystrip action = "" →
      (runActs action gen [.handler, .handler] initCfg).delivered
        = [.notice .reprompt] ∧
      (runActs action gen [.handler, .handler] initCfg).deadlineRearmed = true ∧
      (runActs action gen [.handler, .handler] initCfg).transcript = [] ∧
      (runActs action gen [.handler, .handler] initCfg).attempts = 0 ∧
      (runActs action gen [.handler, .handler] initCfg).pc = .awaitNext) := by
  constructor
  · intro hne
    simp [runActs, adventure_waiter_step, initCfg, hne]
  · intro heq
    simp [runActs, adventure_waiter_step, initCfg, heq]

/-- Witness for `waiter_input_policy` on a command-shaped action. -/
theorem waiter_input_policy_witness :
    pystrip "/强制结束冒险" ≠ "" ∧
    ((runActs "/强制结束冒险" (.ok "剧情") [.handler, .handler, .handler] initCfg).transcript
        = [ChatMsg.mk .user (pystrip "/强制结束冒险")] ∧
      (runActs "/强制结束冒险" (.ok "剧情") [.handler, .handler, .handler] initCfg).attempts
        = 1 ∧
      (runActs "/强制结束冒险" (.ok "剧情") [.handler, .handler, .handler] initCfg).pc
        = .calling) :=
  ⟨by decide, (waiter_input_policy "/强制结束冒险" (.ok "剧情")).1 (by decide)⟩

/-- C6: when the LLM call of a mid-session turn raises, the handler
delivers exactly one failure notice, issues no retry (a single generator
call was made), deletes the user's registry entry, and stops the
session; no schedule continuation changes any of this. -/
theorem generator_failure_terminal (action : String) (extra : List Act)
    (hne : pystrip action ≠ "") :
    failureNotices (runActs action (.error ())
        ([.handler, .handler, .handler, .handler, .handler] ++ extra) initCfg).delivered
      = [.notice .failure] ∧
    (runActs action (.error ())
        ([.handler, .handler, .handler, .handler, .handler] ++ extra) initCfg).attempts
      = 1 ∧
    (runActs action (.error ())
        ([.handler, .handler, .handler, .handler, .handler] ++ extra) initCfg).reg
      = false ∧
    (runActs action (.error ())
        ([.handler, .handler, .handler, .handler, .handler] ++ extra) initCfg).ctrlStopped
      = true ∧
    (runActs action (.error ())
        ([.handler, .handler, .handler, .handler, .handler] ++ extra) initCfg).pc
      = .ended := by
  have h5 : runActs action (.error ())
      [.handler, .handler, .handler, .handler, .handler] initCfg
      = { pc := .ended, reg := false, ctrlLive := true, ctrlStopped := true,
          transcript := [ChatMsg.mk .user (pystrip action)],
          delivered := [.notice .thinking, .notice .failure],
          attempts := 1, deadlineRearmed := false } := by
    simp [runActs, adventure_waiter_step, initCfg, hne]
  have hsplit : runActs action (.error ())
      ([.handler, .handler, .handler, .handler, .handler] ++ extra) initCfg
      = runActs action (.error ()) extra
          (runActs action (.error ())
            [.handler, .handler, .handler, .handler, .handler] initCfg) := by
    simp [runActs, List.foldl_append]
  rw [hsplit, h5, runActs_halted action (.error ()) extra _ rfl rfl]
  exact ⟨rfl, rfl, rfl, rfl, rfl⟩

/-- Witness for `generator_failure_terminal` on a concrete action. -/
theorem generator_failure_terminal_witness :
    pystrip "打开宝箱" ≠ "" ∧
    (failureNotices (runActs "打开宝箱" (.error ())
        ([.handler, .handler, .handler, .handler, .handler] ++ [.handler]) initCfg).delivered
      = [.notice .failure] ∧
    (runActs "打开宝箱" (.error ())
        ([.handler, .handler, .handler, .handler, .handler] ++ [.handler]) initCfg).attempts
      = 1 ∧
    (runActs "打开宝箱" (.error ())
        ([.handler, .handler, .handler, .handler, .handler] ++ [.handler]) initCfg).reg
      = false ∧
    (runActs "打开宝箱" (.error ())
        ([.handler, .handler, .handler, .handler, .handler] ++ [.handler]) initCfg).ctrlStopped
      = true ∧
    (runActs "打开宝箱" (.error ())
        ([.handler, .handler, .handler, .handler, .handler] ++ [.handler]) initCfg).pc
      = .ended) :=
  ⟨by decide, generator_failure_terminal "打开宝箱" [.handler] (by decide)⟩

theorem timeoutMsgHead_length_ne : timeoutMsgHead.length ≠ unknownErrMsgHead.length := by
  decide

theorem timeoutMessage_ne_unknownError (uid : String) :
    timeoutMessage uid ≠ unknownErrorMessage uid := by
  intro h
  have hlen := congrArg String.length h
  rw [timeoutMessage, unknownErrorMessage, String.length_append, String.length_append,
    String.length_append, String.length_append] at hlen
  have hne := timeoutMsgHead_length_ne
  omega

/-- C7: when no input arrives within the per-turn window, the waiter
raises a timeout and `start_adventure` surfaces the distinct
fell-asleep outcome — not the generic error message — removes the
user's registry entry in the `finally` block, and no generator call was
issued for the timed-out turn. -/
theorem timeout_turn_outcome (st : GState) (uid : String) (gen : Except Unit String) :
    (session_epilogue st uid .timedOut).2 = some (timeoutMessage uid) ∧
    timeoutMessage uid ≠ unknownErrorMessage uid ∧
    containsKey (session_epilogue st uid .timedOut).1.active_game_sessions uid = false ∧
    turnAttempts none gen = 0 := by
  refine ⟨rfl, timeoutMessage_ne_unknownError uid, ?_, rfl⟩
  by_cases hc : containsKey st.active_game_sessions uid
  · simp [session_epilogue, hc, containsKey_eraseKey_self]
  · simp only [session_epilogue, hc, if_false]
    simpa using hc

end TextAdventure
